import Mathlib

/-!
Verification of the action-dispatch skeleton in `senlin/engine/action.py`.

The Python module defines a base class `Action` and three subclasses
(`ClusterAction`, `NodeAction`, `PolicyAction`).  We embed the object state
as a structure `ActionState` (one field per attribute set in `__init__`),
and each method as a function from the receiver state (plus arguments) to
`Except PyErr (result × new state × db calls)`: a `.error` value models a
raised Python exception, and the `List DbCall` component records the
`db_api` writes the call performed, so "leaves the store unchanged" is the
statement that the list is empty.

Points where the Python source raises are modelled exactly:
- `ClusterAction.execute` on the CREATE branch evaluates `cluster.do_create`
  where the name `cluster` is unbound in the method scope (it was only a
  parameter of `__init__`): `NameError("cluster")`.
- `PolicyAction.execute` and `PolicyAction.cancel` evaluate
  `datetime.datetime.utcnow()` but the module never imports `datetime`:
  `NameError("datetime")`.  Argument evaluation happens before the `store`
  call itself, so this error fires first on those paths.
- `Action.store` is declared `def store(self)`: calling it with keyword
  arguments raises `TypeError`; `storeCall` models the call mechanics.
-/

namespace Senlin

/-- Python values that appear in this module: `None`, strings, integers,
dictionaries (keyword-argument mappings), and the sentinel `NotImplemented`. -/
inductive PyVal where
  | none : PyVal
  | str : String → PyVal
  | int : Int → PyVal
  | notImplemented : PyVal
  deriving DecidableEq, Repr

/-- Python exceptions raised by this module's code paths. -/
inductive PyErr where
  | nameError : String → PyErr
  | typeError : PyErr
  deriving DecidableEq, Repr

/-- Database writes the module can issue through `db_api`. -/
inductive DbCall where
  | cluster_enable_policy : PyVal → PyVal → DbCall
  | cluster_disable_policy : PyVal → PyVal → DbCall
  | action_update : PyVal → DbCall
  deriving DecidableEq, Repr

/-- The attributes assigned in `Action.__init__`, one field per attribute. -/
structure ActionState where
  id : PyVal
  context : PyVal
  description : String
  target : String
  action : String
  cause : String
  owner : String
  interval : Int
  start_time : String
  end_time : String
  timeout : Int
  status : String
  status_reason : String
  inputs : List (String × PyVal)
  outputs : List (String × PyVal)
  depends_on : List String
  depended_by : List String
  deriving DecidableEq, Repr

/-- Python source: `Action.RETURNS`: `OK = 'OK'`. -/
def Action.OK : String := "OK"

/-- Python source: `Action.RETURNS` / `Action.STATUSES`: `FAILED = 'FAILED'`. -/
def Action.FAILED : String := "FAILED"

/-- Python source: `Action.RETURNS`: `RETRY = 'RETRY'`. -/
def Action.RETRY : String := "RETRY"

/-- The tuple `Action.RETURNS = (OK, FAILED, RETRY)`. -/
def Action.RETURNS : List String := [Action.OK, Action.FAILED, Action.RETRY]

/-- Python source: `Action.STATUSES`: `INIT = 'INIT'`. -/
def Action.INIT : String := "INIT"

/-- Python source: `Action.STATUSES`: `WAITING = 'WAITING'`. -/
def Action.WAITING : String := "WAITING"

/-- Python source: `Action.STATUSES`: `READY = 'READY'`. -/
def Action.READY : String := "READY"

/-- Python source: `Action.STATUSES`: `RUNNING = 'RUNNING'`. -/
def Action.RUNNING : String := "RUNNING"

/-- Python source: `Action.STATUSES`: `SUCCEEDED = 'SUCCEEDED'`. -/
def Action.SUCCEEDED : String := "SUCCEEDED"

/-- Python source: `Action.STATUSES`: the class attribute is spelled `CANCELED`
(one L) while its string value is `'CANCELLED'`. -/
def Action.CANCELED : String := "CANCELLED"

/-- The tuple `Action.STATUSES`. -/
def Action.STATUSES : List String :=
  [Action.INIT, Action.WAITING, Action.READY, Action.RUNNING,
   Action.SUCCEEDED, Action.FAILED, Action.CANCELED]

/-- Python source: `Action.__init__(self, context)`.  `self.timeout` reads the external
configuration value `cfg.CONF.default_action_timeout`, passed here as a
parameter. -/
def Action.init (default_action_timeout : Int) (context : PyVal) : ActionState :=
  { id := PyVal.none
    context := context
    description := ""
    target := ""
    action := ""
    cause := ""
    owner := ""
    interval := -1
    start_time := ""
    end_time := ""
    timeout := default_action_timeout
    status := ""
    status_reason := ""
    inputs := []
    outputs := []
    depends_on := []
    depended_by := [] }

/-- Python source: `Action.execute(self, **kwargs)`: `return NotImplemented`. -/
def Action.execute (self : ActionState) (_kwargs : List (String × PyVal)) :
    Except PyErr (PyVal × ActionState × List DbCall) :=
  Except.ok (PyVal.notImplemented, self, [])

/-- Python source: `Action.cancel(self)`: `return NotImplemented`. -/
def Action.cancel (self : ActionState) :
    Except PyErr (PyVal × ActionState × List DbCall) :=
  Except.ok (PyVal.notImplemented, self, [])

/-- Python source: `Action.store(self)`: the `db_api.action_update` line is commented out,
the body is a bare `return`. -/
def Action.store (self : ActionState) : ActionState × List DbCall :=
  (self, [])

/-- Python call mechanics for `store`: the signature `def store(self)` accepts
no keyword arguments, so a call passing any raises `TypeError`; otherwise the
body of `Action.store` runs. -/
def Action.storeCall (self : ActionState) (kwargs : List (String × PyVal)) :
    Except PyErr (ActionState × List DbCall) :=
  if kwargs.isEmpty then Except.ok (Action.store self) else Except.error PyErr.typeError

/-- Python source: `ClusterAction.ACTIONS`: `CREATE = 'CREATE'`. -/
def ClusterAction.CREATE : String := "CREATE"

/-- Python source: `ClusterAction.ACTIONS`: `DELETE = 'DELETE'`. -/
def ClusterAction.DELETE : String := "DELETE"

/-- Python source: `ClusterAction.ACTIONS`: `ADD_NODE = 'ADD_NODE'`. -/
def ClusterAction.ADD_NODE : String := "ADD_NODE"

/-- Python source: `ClusterAction.ACTIONS`: `DEL_NODE = 'DEL_NODE'`. -/
def ClusterAction.DEL_NODE : String := "DEL_NODE"

/-- Python source: `ClusterAction.ACTIONS`: `UPDATE = 'UPDATE'`. -/
def ClusterAction.UPDATE : String := "UPDATE"

/-- Python source: `ClusterAction.ACTIONS`: `ATTACH_POLICY = 'ATTACH_POLICY'`. -/
def ClusterAction.ATTACH_POLICY : String := "ATTACH_POLICY"

/-- Python source: `ClusterAction.ACTIONS`: `DETACH_POLICY = 'DETACH_POLICY'`. -/
def ClusterAction.DETACH_POLICY : String := "DETACH_POLICY"

/-- The tuple `ClusterAction.ACTIONS`. -/
def ClusterAction.ACTIONS : List String :=
  [ClusterAction.CREATE, ClusterAction.DELETE, ClusterAction.ADD_NODE,
   ClusterAction.DEL_NODE, ClusterAction.UPDATE,
   ClusterAction.ATTACH_POLICY, ClusterAction.DETACH_POLICY]

/-- Python source: `ClusterAction.__init__(self, context, cluster)`: runs the base
`__init__` then `self.target = cluster`. -/
def ClusterAction.init (default_action_timeout : Int) (context : PyVal)
    (cluster : String) : ActionState :=
  { Action.init default_action_timeout context with target := cluster }

/-- Python source: `ClusterAction.execute(self, action, **kwargs)`.  Unrecognized verbs
return `self.FAILED`.  The CREATE branch evaluates `cluster.do_create(kwargs)`
where `cluster` is an unbound name in this scope, raising `NameError`.  Every
other recognized verb falls into the `else: return self.FAILED` branch. -/
def ClusterAction.execute (self : ActionState) (action : String)
    (_kwargs : List (String × PyVal)) :
    Except PyErr (PyVal × ActionState × List DbCall) :=
  if action ∉ ClusterAction.ACTIONS then
    Except.ok (PyVal.str Action.FAILED, self, [])
  else if action = ClusterAction.CREATE then
    Except.error (PyErr.nameError "cluster")
  else
    Except.ok (PyVal.str Action.FAILED, self, [])

/-- Python source: `ClusterAction.cancel(self)`: `return self.FAILED`. -/
def ClusterAction.cancel (self : ActionState) :
    Except PyErr (PyVal × ActionState × List DbCall) :=
  Except.ok (PyVal.str Action.FAILED, self, [])

/-- Python source: `NodeAction.ACTIONS`: `CREATE = 'CREATE'`. -/
def NodeAction.CREATE : String := "CREATE"

/-- Python source: `NodeAction.ACTIONS`: `DELETE = 'DELETE'`. -/
def NodeAction.DELETE : String := "DELETE"

/-- Python source: `NodeAction.ACTIONS`: `UPDATE = 'UPDATE'`. -/
def NodeAction.UPDATE : String := "UPDATE"

/-- Python source: `NodeAction.ACTIONS`: `JOIN = 'JOIN'`. -/
def NodeAction.JOIN : String := "JOIN"

/-- Python source: `NodeAction.ACTIONS`: `LEAVE = 'LEAVE'`. -/
def NodeAction.LEAVE : String := "LEAVE"

/-- The tuple `NodeAction.ACTIONS`. -/
def NodeAction.ACTIONS : List String :=
  [NodeAction.CREATE, NodeAction.DELETE, NodeAction.UPDATE,
   NodeAction.JOIN, NodeAction.LEAVE]

/-- Python source: `NodeAction.__init__(self, context, node)`: runs the base `__init__`;
the body otherwise holds only comments, so `node` is ignored and `target`
keeps its base-class value `''`. -/
def NodeAction.init (default_action_timeout : Int) (context : PyVal)
    (_node : String) : ActionState :=
  Action.init default_action_timeout context

/-- Python source: `NodeAction.execute(self, action, **kwargs)`: `self.FAILED` for an
unrecognized verb, otherwise `self.OK`. -/
def NodeAction.execute (self : ActionState) (action : String)
    (_kwargs : List (String × PyVal)) :
    Except PyErr (PyVal × ActionState × List DbCall) :=
  if action ∉ NodeAction.ACTIONS then
    Except.ok (PyVal.str Action.FAILED, self, [])
  else
    Except.ok (PyVal.str Action.OK, self, [])

/-- Python source: `NodeAction.cancel(self)`: `return self.OK`. -/
def NodeAction.cancel (self : ActionState) :
    Except PyErr (PyVal × ActionState × List DbCall) :=
  Except.ok (PyVal.str Action.OK, self, [])

/-- Python source: `PolicyAction.ACTIONS`: `ENABLE = 'ENABLE'`. -/
def PolicyAction.ENABLE : String := "ENABLE"

/-- Python source: `PolicyAction.ACTIONS`: `DISABLE = 'DISABLE'`. -/
def PolicyAction.DISABLE : String := "DISABLE"

/-- Python source: `PolicyAction.ACTIONS`: `UPDATE = 'UPDATE'`. -/
def PolicyAction.UPDATE : String := "UPDATE"

/-- The tuple `PolicyAction.ACTIONS`. -/
def PolicyAction.ACTIONS : List String :=
  [PolicyAction.ENABLE, PolicyAction.DISABLE, PolicyAction.UPDATE]

/-- Python source: `PolicyAction.__init__(self, context, cluster_id, policy_id)`: runs the
base `__init__`; the body otherwise holds only a comment, so both ids are
ignored and `target` keeps its base-class value `''`. -/
def PolicyAction.init (default_action_timeout : Int) (context : PyVal)
    (_cluster_id _policy_id : String) : ActionState :=
  Action.init default_action_timeout context

/-- Python source: `PolicyAction.execute(self, action, **kwargs)`: `self.FAILED` for an
unrecognized verb.  On a recognized verb the first statement is
`self.store(start_time=datetime.datetime.utcnow(), status=self.RUNNING)`;
its keyword arguments are evaluated first and `datetime` is never imported,
so the call raises `NameError("datetime")` before anything else happens. -/
def PolicyAction.execute (self : ActionState) (action : String)
    (_kwargs : List (String × PyVal)) :
    Except PyErr (PyVal × ActionState × List DbCall) :=
  if action ∉ PolicyAction.ACTIONS then
    Except.ok (PyVal.str Action.FAILED, self, [])
  else
    Except.error (PyErr.nameError "datetime")

/-- Python source: `PolicyAction.cancel(self)`: its only statement is
`self.store(end_time=datetime.datetime.utcnow(), status=self.CANCELLED)`;
`end_time=datetime.datetime.utcnow()` is evaluated first and `datetime` is
never imported, so the call raises `NameError("datetime")`. -/
def PolicyAction.cancel (_self : ActionState) :
    Except PyErr (PyVal × ActionState × List DbCall) :=
  Except.error (PyErr.nameError "datetime")

/-- The operations the module exposes on an action object, each with its
arguments. -/
inductive Op where
  | baseExecute (kwargs : List (String × PyVal))
  | baseCancel
  | baseStore (kwargs : List (String × PyVal))
  | clusterExecute (action : String) (kwargs : List (String × PyVal))
  | clusterCancel
  | nodeExecute (action : String) (kwargs : List (String × PyVal))
  | nodeCancel
  | policyExecute (action : String) (kwargs : List (String × PyVal))
  | policyCancel
  deriving DecidableEq, Repr

/-- Run one operation on an action, keeping the resulting receiver state
(discarding the return value and db-call log). -/
def runOp (op : Op) (self : ActionState) : Except PyErr ActionState :=
  match op with
  | Op.baseExecute k => (Action.execute self k).map (fun r => r.2.1)
  | Op.baseCancel => (Action.cancel self).map (fun r => r.2.1)
  | Op.baseStore k => (Action.storeCall self k).map (fun r => r.1)
  | Op.clusterExecute a k => (ClusterAction.execute self a k).map (fun r => r.2.1)
  | Op.clusterCancel => (ClusterAction.cancel self).map (fun r => r.2.1)
  | Op.nodeExecute a k => (NodeAction.execute self a k).map (fun r => r.2.1)
  | Op.nodeCancel => (NodeAction.cancel self).map (fun r => r.2.1)
  | Op.policyExecute a k => (PolicyAction.execute self a k).map (fun r => r.2.1)
  | Op.policyCancel => (PolicyAction.cancel self).map (fun r => r.2.1)

/-- No operation in this module ever returns a receiver state different from
the one it was given: every non-raising path returns the object unmodified. -/
theorem runOp_ok_eq (op : Op) (s s' : ActionState) (h : runOp op s = Except.ok s') :
    s' = s := by
  cases op <;>
    simp only [runOp, Action.execute, Action.cancel, Action.storeCall, Action.store,
      ClusterAction.execute, ClusterAction.cancel, NodeAction.execute, NodeAction.cancel,
      PolicyAction.execute, PolicyAction.cancel] at h <;>
    (try split at h) <;> (try split at h) <;> simp_all [Except.map]

/-- A fresh base action with a fixed configured timeout, used as a concrete
evaluation point. -/
def sampleBase : ActionState := Action.init 3600 PyVal.none

/-- C1: the claim says execute always returns a member of {OK, FAILED, RETRY}
and never raises, for every target kind, verb and inputs.  In the code,
ClusterAction.execute raises NameError on the recognized verb CREATE (the
name `cluster` is unbound in the method scope), and PolicyAction.execute
raises NameError on every recognized verb (the module never imports
`datetime`), so the claim fails on those inputs. -/
theorem C1_execute_raises :
    ClusterAction.execute (ClusterAction.init 3600 PyVal.none "c1")
      ClusterAction.CREATE [] = Except.error (PyErr.nameError "cluster") ∧
    PolicyAction.execute (PolicyAction.init 3600 PyVal.none "c1" "p1")
      PolicyAction.ENABLE [] = Except.error (PyErr.nameError "datetime") := by
  exact ⟨rfl, rfl⟩

/-- C2 counterexample: executing the unrecognized verb "EXPLODE" on a freshly
built cluster action returns FAILED with the receiver returned unchanged and
no database call; in particular its status_reason is still the empty string,
not "unsupported action" as the claim states. -/
theorem C2_counterexample :
    ClusterAction.execute (ClusterAction.init 3600 PyVal.none "c1") "EXPLODE" []
      = Except.ok (PyVal.str Action.FAILED, ClusterAction.init 3600 PyVal.none "c1", []) ∧
    (ClusterAction.init 3600 PyVal.none "c1").status_reason ≠ "unsupported action" := by
  exact ⟨rfl, by decide⟩

/-- C2 (amended): for every target kind and every verb outside that kind's
own closed verb set — each kind's verb quantified independently, so a verb
another kind recognizes is covered too — execute returns FAILED, returns the
receiver completely unchanged, and issues no database call; but it does not
set status_reason to "unsupported action" (the state, status_reason
included, is untouched). -/
theorem C2_unsupported_verb (s : ActionState) (ac an ap : String)
    (kwargs : List (String × PyVal))
    (hc : ac ∉ ClusterAction.ACTIONS) (hn : an ∉ NodeAction.ACTIONS)
    (hp : ap ∉ PolicyAction.ACTIONS) :
    ClusterAction.execute s ac kwargs = Except.ok (PyVal.str Action.FAILED, s, []) ∧
    NodeAction.execute s an kwargs = Except.ok (PyVal.str Action.FAILED, s, []) ∧
    PolicyAction.execute s ap kwargs = Except.ok (PyVal.str Action.FAILED, s, []) := by
  refine ⟨?_, ?_, ?_⟩ <;>
    simp [ClusterAction.execute, NodeAction.execute, PolicyAction.execute, hc, hn, hp]

/-- Witness for C2 at concrete verbs, each recognized by some other kind but
not by the kind executing it: JOIN for Cluster, ADD_NODE for Node, DELETE
for Policy. -/
theorem C2_witness :
    ("JOIN" ∉ ClusterAction.ACTIONS ∧ "ADD_NODE" ∉ NodeAction.ACTIONS ∧
      "DELETE" ∉ PolicyAction.ACTIONS) ∧
    (ClusterAction.execute sampleBase "JOIN" []
        = Except.ok (PyVal.str Action.FAILED, sampleBase, []) ∧
      NodeAction.execute sampleBase "ADD_NODE" []
        = Except.ok (PyVal.str Action.FAILED, sampleBase, []) ∧
      PolicyAction.execute sampleBase "DELETE" []
        = Except.ok (PyVal.str Action.FAILED, sampleBase, [])) :=
  ⟨⟨by decide, by decide, by decide⟩,
    C2_unsupported_verb sampleBase "JOIN" "ADD_NODE" "DELETE" []
      (by decide) (by decide) (by decide)⟩

/-- C3 counterexample: DELETE is a member of ClusterAction's closed verb set,
yet ClusterAction.execute returns FAILED by itself, without forwarding to any
registered operation, so a recognized verb is rejected by the dispatcher. -/
theorem C3_counterexample :
    ClusterAction.DELETE ∈ ClusterAction.ACTIONS ∧
    ClusterAction.execute (ClusterAction.init 3600 PyVal.none "c1")
        ClusterAction.DELETE []
      = Except.ok (PyVal.str Action.FAILED, ClusterAction.init 3600 PyVal.none "c1", []) := by
  exact ⟨by decide, rfl⟩

/-- C3 (amended): the dispatcher does itself decide outcomes for recognized
verbs.  ClusterAction.execute forwards only the CREATE verb toward the
cluster operation (that forwarding call raises NameError on the unbound name
`cluster`) and itself returns FAILED for every other recognized Cluster
verb; NodeAction.execute itself returns OK for every recognized Node verb
without forwarding to any operation; PolicyAction.execute on a recognized
verb proceeds past validation but raises NameError before reaching any
registered operation. -/
theorem C3_recognized_verbs (s : ActionState) (ac an ap : String)
    (kwargs : List (String × PyVal)) (hc : ac ∈ ClusterAction.ACTIONS)
    (hn : an ∈ NodeAction.ACTIONS) (hp : ap ∈ PolicyAction.ACTIONS) :
    ((ac = ClusterAction.CREATE ∧
        ClusterAction.execute s ac kwargs = Except.error (PyErr.nameError "cluster")) ∨
      (ac ≠ ClusterAction.CREATE ∧
        ClusterAction.execute s ac kwargs
          = Except.ok (PyVal.str Action.FAILED, s, []))) ∧
    NodeAction.execute s an kwargs = Except.ok (PyVal.str Action.OK, s, []) ∧
    PolicyAction.execute s ap kwargs = Except.error (PyErr.nameError "datetime") := by
  refine ⟨?_, ?_, ?_⟩
  · by_cases hce : ac = ClusterAction.CREATE
    · exact Or.inl ⟨hce, by subst hce; simp [ClusterAction.execute, hc]⟩
    · exact Or.inr ⟨hce, by simp [ClusterAction.execute, hc, hce]⟩
  · simp [NodeAction.execute, hn]
  · simp [PolicyAction.execute, hp]

/-- Witness for C3 at the concrete recognized verbs DELETE (Cluster), JOIN
(Node) and ENABLE (Policy). -/
theorem C3_witness :
    (ClusterAction.DELETE ∈ ClusterAction.ACTIONS ∧
      NodeAction.JOIN ∈ NodeAction.ACTIONS ∧
      PolicyAction.ENABLE ∈ PolicyAction.ACTIONS) ∧
    (((ClusterAction.DELETE = ClusterAction.CREATE ∧
          ClusterAction.execute sampleBase ClusterAction.DELETE []
            = Except.error (PyErr.nameError "cluster")) ∨
        (ClusterAction.DELETE ≠ ClusterAction.CREATE ∧
          ClusterAction.execute sampleBase ClusterAction.DELETE []
            = Except.ok (PyVal.str Action.FAILED, sampleBase, []))) ∧
      NodeAction.execute sampleBase NodeAction.JOIN []
        = Except.ok (PyVal.str Action.OK, sampleBase, []) ∧
      PolicyAction.execute sampleBase PolicyAction.ENABLE []
        = Except.error (PyErr.nameError "datetime")) :=
  ⟨⟨by decide, by decide, by decide⟩,
    C3_recognized_verbs sampleBase ClusterAction.DELETE NodeAction.JOIN
      PolicyAction.ENABLE [] (by decide) (by decide) (by decide)⟩

/-- C4 counterexample: a freshly constructed cluster action has status equal
to the empty string, not INIT. -/
theorem C4_counterexample :
    (ClusterAction.init 3600 PyVal.none "c1").status ≠ Action.INIT := by
  decide

/-- C4 (amended): every newly created action record has status equal to the
empty string (not INIT) immediately after construction, for every target kind
and every constructor argument. -/
theorem C4_status_after_init (t : Int) (ctx : PyVal) (c n cid pid : String) :
    (Action.init t ctx).status = "" ∧
    (ClusterAction.init t ctx c).status = "" ∧
    (NodeAction.init t ctx n).status = "" ∧
    (PolicyAction.init t ctx cid pid).status = "" :=
  ⟨rfl, rfl, rfl, rfl⟩

/-- C5: SUCCEEDED, FAILED and CANCELLED are terminal — whenever an action
whose status is one of these undergoes any operation of the module (execute,
cancel or store of any target kind) and that operation returns rather than
raising, the resulting state's status is unchanged.  (A raising operation
returns no new state, so the object's status is unchanged then too.) -/
theorem C5_terminal_preserved (op : Op) (s s' : ActionState)
    (hterm : s.status = Action.SUCCEEDED ∨ s.status = Action.FAILED ∨
      s.status = Action.CANCELED)
    (h : runOp op s = Except.ok s') : s'.status = s.status := by
  rw [runOp_ok_eq op s s' h]

/-- A concrete action sitting in the terminal status SUCCEEDED. -/
def succeededSample : ActionState :=
  { Action.init 3600 PyVal.none with status := Action.SUCCEEDED }

/-- Witness for C5: a SUCCEEDED action put through ClusterAction.cancel keeps
its status. -/
theorem C5_witness :
    (succeededSample.status = Action.SUCCEEDED ∨
      succeededSample.status = Action.FAILED ∨
      succeededSample.status = Action.CANCELED) ∧
    runOp Op.clusterCancel succeededSample = Except.ok succeededSample ∧
    succeededSample.status = succeededSample.status :=
  ⟨Or.inl rfl, rfl,
    C5_terminal_preserved Op.clusterCancel succeededSample succeededSample
      (Or.inl rfl) rfl⟩

/-- A concrete cluster action in status RUNNING. -/
def runningSample : ActionState :=
  { ClusterAction.init 3600 PyVal.none "c1" with status := Action.RUNNING }

/-- C6 counterexample: cancelling a RUNNING cluster action returns FAILED
(not a success report) and returns the receiver unchanged, so its status is
still RUNNING, not CANCELLED. -/
theorem C6_counterexample :
    runningSample.status = Action.RUNNING ∧
    ClusterAction.cancel runningSample
      = Except.ok (PyVal.str Action.FAILED, runningSample, []) ∧
    runningSample.status ≠ Action.CANCELED := by
  exact ⟨rfl, rfl, by decide⟩

/-- C6 (amended): invoking cancel while the action is RUNNING never moves the
status to CANCELLED: ClusterAction.cancel returns FAILED leaving the state
unchanged, NodeAction.cancel returns OK leaving the state unchanged, and
PolicyAction.cancel raises NameError because `datetime` is never imported. -/
theorem C6_cancel_running (s : ActionState) (h : s.status = Action.RUNNING) :
    ClusterAction.cancel s = Except.ok (PyVal.str Action.FAILED, s, []) ∧
    NodeAction.cancel s = Except.ok (PyVal.str Action.OK, s, []) ∧
    PolicyAction.cancel s = Except.error (PyErr.nameError "datetime") :=
  ⟨rfl, rfl, rfl⟩

/-- Witness for C6 at a concrete RUNNING action. -/
theorem C6_witness :
    runningSample.status = Action.RUNNING ∧
    (ClusterAction.cancel runningSample
        = Except.ok (PyVal.str Action.FAILED, runningSample, []) ∧
      NodeAction.cancel runningSample
        = Except.ok (PyVal.str Action.OK, runningSample, []) ∧
      PolicyAction.cancel runningSample = Except.error (PyErr.nameError "datetime")) :=
  ⟨rfl, C6_cancel_running runningSample rfl⟩

/-- C7: the closed verb set of each target kind is exactly the one the spec
lists, in the source's order; membership in these lists is what every
execute checks, so no other verb is recognized. -/
theorem C7_verb_sets :
    ClusterAction.ACTIONS = ["CREATE", "DELETE", "ADD_NODE", "DEL_NODE",
      "UPDATE", "ATTACH_POLICY", "DETACH_POLICY"] ∧
    NodeAction.ACTIONS = ["CREATE", "DELETE", "UPDATE", "JOIN", "LEAVE"] ∧
    PolicyAction.ACTIONS = ["ENABLE", "DISABLE", "UPDATE"] :=
  ⟨rfl, rfl, rfl⟩

/-- C8 counterexample: constructing a node action for the node "n1" does not
record "n1" in target — target is left at the base-class value, the empty
string. -/
theorem C8_counterexample :
    (NodeAction.init 3600 PyVal.none "n1").target ≠ "n1" := by
  decide

/-- C8 (amended): only ClusterAction's constructor records the entity's id in
target; NodeAction's and PolicyAction's constructors ignore their entity-id
arguments and leave target as the empty string. -/
theorem C8_target_after_init (t : Int) (ctx : PyVal) (c n cid pid : String) :
    (ClusterAction.init t ctx c).target = c ∧
    (NodeAction.init t ctx n).target = "" ∧
    (PolicyAction.init t ctx cid pid).target = "" :=
  ⟨rfl, rfl, rfl⟩

/-- C9: Action.store is a no-op accepting no keyword arguments — a call with
none returns the receiver unchanged and performs no database write, and any
call passing keyword arguments raises TypeError. -/
theorem C9_store_noop (s : ActionState) (kwargs : List (String × PyVal))
    (h : kwargs ≠ []) :
    Action.storeCall s [] = Except.ok (s, []) ∧
    Action.storeCall s kwargs = Except.error PyErr.typeError := by
  refine ⟨rfl, ?_⟩
  cases kwargs with
  | nil => exact absurd rfl h
  | cons p l => rfl

/-- Witness for C9 at the concrete keyword argument list
[status := 'RUNNING']. -/
theorem C9_witness :
    ([("status", PyVal.str "RUNNING")] : List (String × PyVal)) ≠ [] ∧
    (Action.storeCall sampleBase [] = Except.ok (sampleBase, []) ∧
      Action.storeCall sampleBase [("status", PyVal.str "RUNNING")]
        = Except.error PyErr.typeError) :=
  ⟨by decide,
    C9_store_noop sampleBase [("status", PyVal.str "RUNNING")] (by decide)⟩

/-- C10: the base class's execute and cancel return the NotImplemented
sentinel without raising and without touching the state, and NotImplemented
is not among the declared outcomes {OK, FAILED, RETRY}. -/
theorem C10_base_not_implemented (s : ActionState)
    (kwargs : List (String × PyVal)) :
    Action.execute s kwargs = Except.ok (PyVal.notImplemented, s, []) ∧
    Action.cancel s = Except.ok (PyVal.notImplemented, s, []) ∧
    (Action.RETURNS.map PyVal.str).contains PyVal.notImplemented = false :=
  ⟨rfl, rfl, by decide⟩

end Senlin
